import Mathlib

/-!
Verification of the AzureMachinePool admission webhook
(`exp/api/v1beta1/azuremachinepool_webhook.go`).

The webhook validates and defaults `AzureMachinePool` objects.  The data
model below is translated from the fields the webhook reads; shared
validators living elsewhere in the repository (`infrav1.ValidateImage`,
`infrav1.ValidateSSHKey`, `infrav1.ValidateUserAssignedIdentity`,
`infrav1.ValidateSystemAssignedIdentity`) and the parent-lookup capability
(`azure.FindParentMachinePoolWithRetry`) are modelled as opaque function
parameters, because only their call sites are in scope.
-/

namespace AMPWebhook

/-- `field.ErrorType` values used by this webhook. -/
inductive FieldErrorType
  | required
  | invalid
  | forbidden
  deriving DecidableEq, Repr

/-- A `*field.Error`: a typed, field-path-scoped validation error. -/
structure FieldError where
  errType : FieldErrorType
  path : List String
  msg : String
  deriving DecidableEq, Repr

/-- The error value a single validator can return (Go `error`):
`errors.New` / `fmt.Errorf` give `simple`, `errors.Wrap` gives `wrap`,
and the field-error lists of the shared validators are re-aggregated with
`kerrors.NewAggregate(errs.ToAggregate().Errors())`, giving `fieldAgg`. -/
inductive BaseError
  | simple (msg : String)
  | wrap (cause : String) (msg : String)
  | fieldAgg (errs : List FieldError)
  deriving DecidableEq, Repr

/-- The error value the webhook entry points return: either a bare
`*field.Error` (the feature-gate `field.Forbidden`) or the aggregate
built by `Validate` via `kerrors.NewAggregate`. -/
inductive WebhookError
  | fieldErr (e : FieldError)
  | aggregate (errs : List BaseError)
  deriving DecidableEq, Repr

/-- `kerrors.NewAggregate`: `nil` (here `none`) on an empty error list,
otherwise an aggregate holding every collected error. -/
def newAggregate (errs : List BaseError) : Option WebhookError :=
  if errs.isEmpty then none else some (.aggregate errs)

/-- `kerrors.NewAggregate(errs.ToAggregate().Errors())` applied to a shared
validator `field.ErrorList` result: `nil` iff the list is empty.  (The
round-trip through `ToAggregate` deduplicates identical messages, which
does not affect emptiness; the shared lists are opaque here.) -/
def aggIfAny (errs : List FieldError) : Option BaseError :=
  if errs.isEmpty then none else some (.fieldAgg errs)

/-! ## Data model (fields read by the webhook) -/

/-- Opaque payload of `infrav1.Image`; the webhook only forwards it. -/
abbrev Image := String

/-- Opaque payload of a user-assigned identity reference. -/
abbrev UserAssignedIdentity := String

/-- Opaque payload of an `infrav1.NetworkInterface` entry. -/
abbrev NetworkInterface := String

/-- `intstr.Type`: whether an `IntOrString` carries an int or a string. -/
inductive IntOrStringType
  | intType
  | stringType
  deriving DecidableEq, Repr

/-- `intstr.IntOrString`. -/
structure IntOrString where
  type : IntOrStringType
  intVal : Int
  strVal : String
  deriving DecidableEq, Repr

/-- `MachineRollingUpdateDeployment`: the rolling-update parameters the
webhook reads (`MaxSurge`, `MaxUnavailable`), accessed unconditionally. -/
structure MachineRollingUpdateDeployment where
  maxSurge : IntOrString
  maxUnavailable : IntOrString
  deriving DecidableEq, Repr

/-- `AzureMachinePoolDeploymentStrategy`. -/
structure AzureMachinePoolDeploymentStrategy where
  type : String
  rollingUpdate : Option MachineRollingUpdateDeployment
  deriving DecidableEq, Repr

def RollingUpdateAzureMachinePoolDeploymentStrategyType : String :=
  "RollingUpdate"

/-- `infrav1.UserManagedBootDiagnostics`. -/
structure UserManagedBootDiagnostics where
  storageAccountURI : String
  deriving DecidableEq, Repr

/-- `infrav1.BootDiagnostics`. -/
structure BootDiagnostics where
  storageAccountType : String
  userManaged : Option UserManagedBootDiagnostics
  deriving DecidableEq, Repr

/-- `infrav1.Diagnostics`. -/
structure Diagnostics where
  boot : Option BootDiagnostics
  deriving DecidableEq, Repr

def UserManagedDiagnosticsStorage : String := "UserManaged"
def ManagedDiagnosticsStorage : String := "Managed"
def DisabledDiagnosticsStorage : String := "Disabled"

/-- `compute.OrchestrationModeFlexible`. -/
def OrchestrationModeFlexible : String := "Flexible"

def VMIdentitySystemAssigned : String := "SystemAssigned"

/-- `AzureMachinePoolMachineTemplate`: the template fields the webhook
reads.  A Go `nil` slice and an empty slice both become `[]`. -/
structure AzureMachinePoolMachineTemplate where
  image : Option Image
  terminateNotificationTimeout : Option Int
  sshPublicKey : String
  diagnostics : Option Diagnostics
  networkInterfaces : List NetworkInterface
  subnetName : String
  deriving DecidableEq, Repr

/-- `AzureMachinePoolSpec` (fields read by the webhook). -/
structure AzureMachinePoolSpec where
  template : AzureMachinePoolMachineTemplate
  strategy : AzureMachinePoolDeploymentStrategy
  identity : String
  userAssignedIdentities : List UserAssignedIdentity
  roleAssignmentName : String
  orchestrationMode : String
  deriving DecidableEq, Repr

/-- `AzureMachinePool` (the candidate object). -/
structure AzureMachinePool where
  name : String
  spec : AzureMachinePoolSpec
  deriving DecidableEq, Repr

/-- The `old runtime.Object` parameter: a dynamically typed value that is
either an `*AzureMachinePool` or some other type (carrying its type name,
as printed by `reflect.TypeOf`). -/
inductive RuntimeObject
  | azureMachinePool (amp : AzureMachinePool)
  | other (typeName : String)
  deriving DecidableEq, Repr

/-- The parent `MachinePool` as the webhook reads it:
`parent.Spec.Template.Spec.Version`. -/
structure MachinePool where
  version : Option String
  deriving DecidableEq, Repr

/-- `azure.FindParentMachinePoolWithRetry(name, client, retries)`,
abstracted: the name and the retry bound are passed through, the result is
the parent or an opaque error message. -/
abbrev ParentLookup := String → Nat → Except String MachinePool

/-- The shared validators from `infrav1` (not part of this file); each
returns a `field.ErrorList`. -/
structure SharedValidators where
  validateImage : Image → List FieldError
  validateSSHKey : String → List FieldError
  validateUserAssignedIdentity :
    String → List UserAssignedIdentity → List FieldError
  validateSystemAssignedIdentity :
    String → String → String → List FieldError

/-! ## Semantic version parsing (`blang/semver`)

`ValidateOrchestrationMode` calls `semver.ParseTolerant` and compares with
`semver.MustParse("1.26.0")` using `Version.LT`.  The library is external;
it is modelled here after the documented semver semantics the spec relies
on: tolerant of surrounding spaces, a leading `v` and a missing minor or
patch component; otherwise strict `major.minor.patch[-pre][+build]`. -/

deriving instance DecidableEq for Except

/-- A pre-release identifier: numeric or alphanumeric. -/
inductive PRVersion
  | num (n : Nat)
  | alphanum (s : String)
  deriving DecidableEq, Repr

/-- A parsed semantic version. -/
structure SemVersion where
  major : Nat
  minor : Nat
  patch : Nat
  pre : List PRVersion
  build : List String
  deriving DecidableEq, Repr

/-- Split a character list on a separator (the `List Char` counterpart of
`strings.Split`); written with structural recursion so that concrete
inputs evaluate inside proofs. -/
def splitOnChar (sep : Char) (cs : List Char) : List (List Char) :=
  match cs with
  | [] => [[]]
  | c :: rest =>
    let r := splitOnChar sep rest
    if c = sep then
      [] :: r
    else
      match r with
      | [] => [[c]]
      | h :: t => (c :: h) :: t

def isDigits (cs : List Char) : Bool :=
  !cs.isEmpty && cs.all Char.isDigit

def isAlphanumChar (c : Char) : Bool :=
  c.isDigit || c.isAlpha || c = '-'

def hasLeadingZeroes (cs : List Char) : Bool :=
  match cs with
  | c :: _ :: _ => c = '0'
  | _ => false

def digitsToNat (cs : List Char) : Nat :=
  cs.foldl (fun acc c => acc * 10 + (c.toNat - 48)) 0

/-- Parse a numeric version component (no leading zeroes allowed). -/
def parseNumPart (cs : List Char) : Except String Nat :=
  if isDigits cs && !hasLeadingZeroes cs then
    .ok (digitsToNat cs)
  else
    .error ("invalid numeric part " ++ String.mk cs)

/-- Parse one pre-release identifier. -/
def parsePRVersion (cs : List Char) : Except String PRVersion :=
  if cs.isEmpty then .error "pre-release identifier is empty"
  else if isDigits cs then
    if hasLeadingZeroes cs then .error "numeric pre-release has leading zero"
    else .ok (.num (digitsToNat cs))
  else if cs.all isAlphanumChar then .ok (.alphanum (String.mk cs))
  else .error ("invalid pre-release identifier " ++ String.mk cs)

def parsePRList (parts : List (List Char)) : Except String (List PRVersion) :=
  match parts with
  | [] => .ok []
  | p :: rest => do
    let v ← parsePRVersion p
    let vs ← parsePRList rest
    .ok (v :: vs)

def checkBuildList (parts : List (List Char)) : Except String (List String) :=
  match parts with
  | [] => .ok []
  | p :: rest =>
    if p.isEmpty || !p.all isAlphanumChar then
      .error ("invalid build metadata " ++ String.mk p)
    else do
      let vs ← checkBuildList rest
      .ok (String.mk p :: vs)

/-- Strict `semver.Parse` on `major.minor.patchSection`. -/
def semverParse (cs : List Char) : Except String SemVersion := do
  match splitOnChar '.' cs with
  | majorS :: minorS :: patchRest =>
    if patchRest.isEmpty then .error "no 3 version parts" else do
    let major ← parseNumPart majorS
    let minor ← parseNumPart minorS
    let patchSection := List.intercalate ['.'] patchRest
    match splitOnChar '+' patchSection with
    | [] => .error "empty patch section"
    | patchAndPre :: buildRest => do
      let build ←
        if buildRest.isEmpty then pure []
        else checkBuildList (splitOnChar '.' (List.intercalate ['+'] buildRest))
      match splitOnChar '-' patchAndPre with
      | [] => .error "empty patch section"
      | patchS :: preRest => do
        let patch ← parseNumPart patchS
        let pre ←
          if preRest.isEmpty then pure []
          else parsePRList (splitOnChar '.' (List.intercalate ['-'] preRest))
        .ok ⟨major, minor, patch, pre, build⟩
  | _ => .error "no 3 version parts"

/-- Strip leading zeroes from a version part, as `ParseTolerant` does. -/
def stripLeadingZeroes (cs : List Char) : List Char :=
  match cs with
  | _ :: _ :: _ =>
    match cs.dropWhile (· = '0') with
    | [] => ['0']
    | c :: t => if c.isDigit then c :: t else '0' :: c :: t
  | _ => cs

def trimChars (cs : List Char) : List Char :=
  ((cs.dropWhile Char.isWhitespace).reverse.dropWhile Char.isWhitespace).reverse

/-- `semver.ParseTolerant`: trims spaces, strips a leading `v`, removes
leading zeroes, pads a short `major` / `major.minor` form with `.0`
components (rejecting short forms that carry pre-release or build
metadata), then parses strictly. -/
def semverParseTolerant (s : String) : Except String SemVersion :=
  let cs := trimChars s.data
  let cs := match cs with
    | 'v' :: rest => rest
    | _ => cs
  let parts := (splitOnChar '.' cs).map stripLeadingZeroes
  if parts.length < 3 then
    if (parts.getLastD []).any (fun c => c = '+' || c = '-') then
      .error "short version cannot contain PreRelease/Build meta data"
    else
      semverParse
        (List.intercalate ['.'] (parts ++ List.replicate (3 - parts.length) ['0']))
  else
    semverParse (List.intercalate ['.'] parts)

/-- Compare two pre-release identifiers (`PRVersion.Compare`). -/
def prCompare : PRVersion → PRVersion → Ordering
  | .num a, .num b => compare a b
  | .num _, .alphanum _ => .lt
  | .alphanum _, .num _ => .gt
  | .alphanum a, .alphanum b => compare a b

def preListCompare : List PRVersion → List PRVersion → Ordering
  | [], [] => .eq
  | [], _ :: _ => .lt
  | _ :: _, [] => .gt
  | a :: as, b :: bs =>
    match prCompare a b with
    | .eq => preListCompare as bs
    | o => o

/-- `semver.Version.Compare`: numeric triple lexicographically, then a
version with pre-release identifiers sorts below one without. -/
def semverCompare (a b : SemVersion) : Ordering :=
  match compare a.major b.major with
  | .eq =>
    match compare a.minor b.minor with
    | .eq =>
      match compare a.patch b.patch with
      | .eq =>
        match a.pre, b.pre with
        | [], [] => .eq
        | [], _ :: _ => .gt
        | _ :: _, [] => .lt
        | x, y => preListCompare x y
      | o => o
    | o => o
  | o => o

/-- `semver.Version.LT`. -/
def semverLT (a b : SemVersion) : Bool :=
  semverCompare a b = .lt

/-- `semver.MustParse("1.26.0")`. -/
def semverV1_26_0 : SemVersion := ⟨1, 26, 0, [], []⟩

/-- Rendering used in the version-too-old message. -/
def semverToString (v : SemVersion) : String :=
  toString v.major ++ "." ++ toString v.minor ++ "." ++ toString v.patch

/-! ## The nine field validators -/

/-- `ValidateNetwork`: NetworkInterfaces and the machine SubnetName are
mutually exclusive. -/
def ValidateNetwork (amp : AzureMachinePool) : Option BaseError :=
  if amp.spec.template.networkInterfaces ≠ [] ∧
      amp.spec.template.networkInterfaces.length > 0 ∧
      amp.spec.template.subnetName ≠ "" then
    some (.simple "cannot set both NetworkInterfaces and machine SubnetName")
  else
    none

/-- `ValidateImage`: delegate a set image to `infrav1.ValidateImage` and
re-aggregate its errors. -/
def ValidateImage (sh : SharedValidators) (amp : AzureMachinePool) :
    Option BaseError :=
  match amp.spec.template.image with
  | none => none
  | some image =>
    let errs := sh.validateImage image
    if errs.length > 0 then aggIfAny errs else none

/-- `ValidateTerminateNotificationTimeout`: an unset timeout passes; a set
timeout must lie in `[5, 15]`, with the violated bound named. -/
def ValidateTerminateNotificationTimeout (amp : AzureMachinePool) :
    Option BaseError :=
  match amp.spec.template.terminateNotificationTimeout with
  | none => none
  | some t =>
    if t < 5 then
      some (.simple "minimum timeout 5 is allowed for TerminateNotificationTimeout")
    else if t > 15 then
      some (.simple "maximum timeout 15 is allowed for TerminateNotificationTimeout")
    else
      none

/-- `ValidateSSHKey`: delegate a non-empty key to `infrav1.ValidateSSHKey`. -/
def ValidateSSHKey (sh : SharedValidators) (amp : AzureMachinePool) :
    Option BaseError :=
  if amp.spec.template.sshPublicKey ≠ "" then
    let errs := sh.validateSSHKey amp.spec.template.sshPublicKey
    if errs.length > 0 then aggIfAny errs else none
  else
    none

/-- `ValidateUserAssignedIdentity`: delegate to
`infrav1.ValidateUserAssignedIdentity`. -/
def ValidateUserAssignedIdentity (sh : SharedValidators)
    (amp : AzureMachinePool) : Option BaseError :=
  let errs :=
    sh.validateUserAssignedIdentity amp.spec.identity
      amp.spec.userAssignedIdentities
  if errs.length > 0 then aggIfAny errs else none

/-- `ValidateStrategy`: for a RollingUpdate strategy with present
rolling-update parameters, MaxSurge and MaxUnavailable must not both be
the absolute integer 0. -/
def ValidateStrategy (amp : AzureMachinePool) : Option BaseError :=
  if amp.spec.strategy.type = RollingUpdateAzureMachinePoolDeploymentStrategyType then
    match amp.spec.strategy.rollingUpdate with
    | some ru =>
      if ru.maxSurge.type = .intType ∧ ru.maxSurge.intVal = 0 ∧
          ru.maxUnavailable.type = .intType ∧ ru.maxUnavailable.intVal = 0 then
        some (.simple "rolling update strategy MaxUnavailable must not be 0 if MaxSurge is 0")
      else
        none
    | none => none
  else
    none

/-- `ValidateSystemAssignedIdentity`: read the previous role-assignment
name from the prior object (empty when `old` is `nil`, a type-mismatch
error when `old` is present but not an `*AzureMachinePool`) and delegate
to `infrav1.ValidateSystemAssignedIdentity`. -/
def ValidateSystemAssignedIdentity (sh : SharedValidators)
    (old : Option RuntimeObject) (amp : AzureMachinePool) :
    Option BaseError :=
  match old with
  | some (.other typeName) =>
    some (.simple
      ("unexpected type for old azure machine pool object. Expected: \x22AzureMachinePool\x22, Got: \x22"
        ++ typeName ++ "\x22"))
  | some (.azureMachinePool oldMachinePool) =>
    aggIfAny (sh.validateSystemAssignedIdentity amp.spec.identity
      oldMachinePool.spec.roleAssignmentName amp.spec.roleAssignmentName)
  | none =>
    aggIfAny (sh.validateSystemAssignedIdentity amp.spec.identity
      "" amp.spec.roleAssignmentName)

/-- `ValidateDiagnostics`: constraints between the boot-diagnostics
storage-account type and the user-managed storage-account URI. -/
def ValidateDiagnostics (amp : AzureMachinePool) : Option BaseError :=
  let allErrs : List FieldError :=
    match amp.spec.template.diagnostics with
    | none => []
    | some diagnostics =>
      match diagnostics.boot with
      | none => []
      | some boot =>
        if boot.storageAccountType = UserManagedDiagnosticsStorage then
          match boot.userManaged with
          | none =>
            [⟨.required, ["diagnostics", "UserManaged"],
              "userManaged must be specified when storageAccountType is \x27UserManaged\x27"⟩]
          | some um =>
            if um.storageAccountURI = "" then
              [⟨.required, ["diagnostics", "StorageAccountURI"],
                "StorageAccountURI cannot be empty when storageAccountType is \x27UserManaged\x27"⟩]
            else []
        else if boot.storageAccountType = ManagedDiagnosticsStorage then
          match boot.userManaged with
          | some um =>
            if um.storageAccountURI ≠ "" then
              [⟨.invalid, ["diagnostics", "StorageAccountURI"],
                "StorageAccountURI cannot be set when storageAccountType is \x27Managed\x27"⟩]
            else []
          | none => []
        else if boot.storageAccountType = DisabledDiagnosticsStorage then
          match boot.userManaged with
          | some um =>
            if um.storageAccountURI ≠ "" then
              [⟨.invalid, ["diagnostics", "StorageAccountURI"],
                "StorageAccountURI cannot be set when storageAccountType is \x27Managed\x27"⟩]
            else []
          | none => []
        else []
  if allErrs.length > 0 then aggIfAny allErrs else none

/-- `ValidateOrchestrationMode`: only the Flexible mode is checked; the
parent MachinePool is looked up by the name of the candidate itself with 5
retries and must declare a Kubernetes version parsing (tolerantly) to at
least 1.26.0. -/
def ValidateOrchestrationMode (findParent : ParentLookup)
    (amp : AzureMachinePool) : Option BaseError :=
  if amp.spec.orchestrationMode = OrchestrationModeFlexible then
    match findParent amp.name 5 with
    | .error e => some (.wrap e "failed to find parent MachinePool")
    | .ok parent =>
      match parent.version with
      | none => some (.simple "could not find Kubernetes version in MachinePool")
      | some v =>
        match semverParseTolerant v with
        | .error e => some (.wrap e "failed to parse Kubernetes version")
        | .ok k8sVersion =>
          if semverLT k8sVersion semverV1_26_0 then
            some (.simple
              ("specified Kubernetes version " ++ semverToString k8sVersion
                ++ " must be >= 1.26.0 for Flexible orchestration mode"))
          else
            none
  else
    none

/-! ## Aggregator and entry points -/

/-- The validator list built inside `Validate`, in source order. -/
def validatorResults (sh : SharedValidators) (findParent : ParentLookup)
    (old : Option RuntimeObject) (amp : AzureMachinePool) :
    List (Option BaseError) :=
  [ValidateImage sh amp,
   ValidateTerminateNotificationTimeout amp,
   ValidateSSHKey sh amp,
   ValidateUserAssignedIdentity sh amp,
   ValidateDiagnostics amp,
   ValidateOrchestrationMode findParent amp,
   ValidateStrategy amp,
   ValidateSystemAssignedIdentity sh old amp,
   ValidateNetwork amp]

/-- `Validate`: run every validator, collect each fired error, and return
`kerrors.NewAggregate` of the collection. -/
def Validate (sh : SharedValidators) (findParent : ParentLookup)
    (old : Option RuntimeObject) (amp : AzureMachinePool) :
    Option WebhookError :=
  newAggregate ((validatorResults sh findParent old amp).filterMap id)

/-- `ValidateCreate`: reject with `field.Forbidden` on `spec` when the
MachinePool feature gate is disabled, otherwise `Validate` with no prior
object. -/
def ValidateCreate (machinePoolFeatureEnabled : Bool)
    (sh : SharedValidators) (findParent : ParentLookup)
    (amp : AzureMachinePool) : Option WebhookError :=
  if !machinePoolFeatureEnabled then
    some (.fieldErr ⟨.forbidden, ["spec"],
      "can be set only if the MachinePool feature flag is enabled"⟩)
  else
    Validate sh findParent none amp

/-- `ValidateUpdate`: `Validate` against the prior object. -/
def ValidateUpdate (sh : SharedValidators) (findParent : ParentLookup)
    (old : Option RuntimeObject) (amp : AzureMachinePool) :
    Option WebhookError :=
  Validate sh findParent old amp

/-- `ValidateDelete`: always accepts. -/
def ValidateDelete (_amp : AzureMachinePool) : Option WebhookError :=
  none

/-! ## Defaulting routine

`Default` calls `SetDefaultSSHPublicKey`, `SetIdentityDefaults`,
`SetDiagnosticsDefaults` and `SetNetworkInterfacesDefaults` in order.
Those four helpers live elsewhere in the repository (only their call
sites are in scope here), so they are modelled from the spec.  The
generated values (SSH key, role-assignment name, default blocks) are
supplied by an environment so the model stays deterministic. -/

/-- The values the defaulting helpers would generate or fill in. -/
structure DefaultingEnv where
  /-- Generated SSH public key; `none` models a generation failure, which
  is logged and leaves the field untouched. -/
  generatedSSHPublicKey : Option String
  /-- Generated role-assignment name for a system-assigned identity. -/
  generatedRoleAssignmentName : String
  /-- Default boot-diagnostics block. -/
  defaultBootDiagnostics : BootDiagnostics
  /-- Default network-interface list. -/
  defaultNetworkInterfaces : List NetworkInterface

/-- Modelled from the spec: `SetDefaultSSHPublicKey` (not in scope)
generates and assigns a default SSH public key only when the field is
unset; a generation failure is logged and never propagated. -/
def SetDefaultSSHPublicKey (env : DefaultingEnv) (amp : AzureMachinePool) :
    AzureMachinePool :=
  if amp.spec.template.sshPublicKey = "" then
    match env.generatedSSHPublicKey with
    | some key =>
      { amp with spec.template.sshPublicKey := key }
    | none => amp
  else
    amp

/-- Modelled from the spec: `SetIdentityDefaults` (not in scope) fills
identity-type-dependent defaults, only when unset: a system-assigned
identity with no role-assignment name gets a generated one. -/
def SetIdentityDefaults (env : DefaultingEnv) (amp : AzureMachinePool) :
    AzureMachinePool :=
  if amp.spec.identity = VMIdentitySystemAssigned ∧
      amp.spec.roleAssignmentName = "" then
    { amp with spec.roleAssignmentName := env.generatedRoleAssignmentName }
  else
    amp

/-- Modelled from the spec: `SetDiagnosticsDefaults` (not in scope) fills
unset boot-diagnostics blocks with defaults and never overwrites set
ones. -/
def SetDiagnosticsDefaults (env : DefaultingEnv) (amp : AzureMachinePool) :
    AzureMachinePool :=
  let d := amp.spec.template.diagnostics.getD ⟨none⟩
  let boot := d.boot.getD env.defaultBootDiagnostics
  { amp with spec.template.diagnostics := some ⟨some boot⟩ }

/-- Modelled from the spec: `SetNetworkInterfacesDefaults` (not in scope)
fills an unset network-interface list with defaults and never overwrites
a set one. -/
def SetNetworkInterfacesDefaults (env : DefaultingEnv)
    (amp : AzureMachinePool) : AzureMachinePool :=
  if amp.spec.template.networkInterfaces = [] then
    { amp with spec.template.networkInterfaces := env.defaultNetworkInterfaces }
  else
    amp

/-- `Default`: the four defaulting steps in source order. -/
def Default (env : DefaultingEnv) (amp : AzureMachinePool) :
    AzureMachinePool :=
  SetNetworkInterfacesDefaults env
    (SetDiagnosticsDefaults env
      (SetIdentityDefaults env
        (SetDefaultSSHPublicKey env amp)))

/-! ## Concrete fixtures used in witnesses and counterexample-style checks -/

/-- Shared validators that accept everything: used to isolate the
webhook-local rules. -/
def shOK : SharedValidators :=
  ⟨fun _ => [], fun _ => [], fun _ _ => [], fun _ _ _ => []⟩

/-- A parent lookup that finds a MachinePool at Kubernetes 1.28.0. -/
def lookupOK : ParentLookup := fun _ _ => .ok ⟨some "1.28.0"⟩

/-- A parent lookup that finds a MachinePool at Kubernetes 1.25.9. -/
def lookup1259 : ParentLookup := fun _ _ => .ok ⟨some "1.25.9"⟩

/-- A parent lookup that finds a MachinePool at Kubernetes 1.26.0. -/
def lookup1260 : ParentLookup := fun _ _ => .ok ⟨some "1.26.0"⟩

/-- A parent lookup that finds a MachinePool whose version is garbage. -/
def lookupBadVersion : ParentLookup := fun _ _ => .ok ⟨some "not-a-version"⟩

/-- A template with every optional field unset. -/
def tmplOK : AzureMachinePoolMachineTemplate := ⟨none, none, "", none, [], ""⟩

/-- A fully valid machine pool (every rule passes). -/
def ampOK : AzureMachinePool :=
  ⟨"pool0", ⟨tmplOK, ⟨"", none⟩, "", [], "", ""⟩⟩

/-- A pool violating exactly two independent rules: termination timeout 3
and both NetworkInterfaces and SubnetName set. -/
def ampTwoViolations : AzureMachinePool :=
  { ampOK with
      spec.template.terminateNotificationTimeout := some 3
      spec.template.networkInterfaces := ["nic-0"]
      spec.template.subnetName := "subnet-1" }

/-- A pool with a given termination-notification timeout. -/
def ampWithTimeout (t : Int) : AzureMachinePool :=
  { ampOK with spec.template.terminateNotificationTimeout := some t }

/-- A pool with a given update strategy. -/
def ampWithStrategy (s : AzureMachinePoolDeploymentStrategy) :
    AzureMachinePool :=
  { ampOK with spec.strategy := s }

/-- A pool with given boot diagnostics. -/
def ampWithBoot (b : BootDiagnostics) : AzureMachinePool :=
  { ampOK with spec.template.diagnostics := some ⟨some b⟩ }

/-- A pool in Flexible orchestration mode. -/
def ampFlexible : AzureMachinePool :=
  { ampOK with spec.orchestrationMode := "Flexible" }

/-- A concrete defaulting environment. -/
def envDefaults : DefaultingEnv :=
  ⟨some "ssh-rsa AAAA", "role-1", ⟨"Managed", none⟩, ["nic-default"]⟩

/-- The SSH public key after one `SetDefaultSSHPublicKey` pass. -/
def sshAfter (env : DefaultingEnv) (ssh : String) : String :=
  if ssh = "" then
    match env.generatedSSHPublicKey with
    | some key => key
    | none => ssh
  else ssh

/-- The role-assignment name after one `SetIdentityDefaults` pass. -/
def roleAfter (env : DefaultingEnv) (ident role : String) : String :=
  if ident = VMIdentitySystemAssigned ∧ role = "" then
    env.generatedRoleAssignmentName
  else role

/-- The diagnostics block after one `SetDiagnosticsDefaults` pass. -/
def diagAfter (env : DefaultingEnv) (diag : Option Diagnostics) :
    Option Diagnostics :=
  some ⟨some ((diag.getD ⟨none⟩).boot.getD env.defaultBootDiagnostics)⟩

/-- The network-interface list after one `SetNetworkInterfacesDefaults`
pass. -/
def nicsAfter (env : DefaultingEnv) (nics : List NetworkInterface) :
    List NetworkInterface :=
  if nics = [] then env.defaultNetworkInterfaces else nics

/-! ## Theorems -/

/-- Helper: a `filterMap id` over option values is empty exactly when
every value is `none`. -/
theorem list_filterMap_id_eq_nil {α : Type} (l : List (Option α)) :
    l.filterMap id = [] ↔ ∀ x ∈ l, x = none := by
  induction l with
  | nil => simp
  | cons h t ih =>
    cases h with
    | none => simp [ih]
    | some a => simp [List.filterMap_cons]

/-- Claim C1: `Validate` runs all nine validators without
short-circuiting and aggregates their errors: the result is `nil` exactly
when the nine-entry validator result list is all-`none`, and a candidate
violating exactly two independent rules (termination timeout 3 together
with the NetworkInterfaces/SubnetName exclusivity rule) produces an
aggregate holding exactly those two sub-errors. -/
theorem validate_runs_all_and_aggregates :
    (∀ (sh : SharedValidators) (findParent : ParentLookup)
        (old : Option RuntimeObject) (amp : AzureMachinePool),
      Validate sh findParent old amp = none ↔
        validatorResults sh findParent old amp = List.replicate 9 none)
    ∧ Validate shOK lookupOK none ampTwoViolations =
        some (.aggregate
          [.simple "minimum timeout 5 is allowed for TerminateNotificationTimeout",
           .simple "cannot set both NetworkInterfaces and machine SubnetName"]) := by
  constructor
  · intro sh findParent old amp
    unfold Validate newAggregate
    have hlen : (validatorResults sh findParent old amp).length = 9 := by
      simp [validatorResults]
    constructor
    · intro h
      have hempty : (validatorResults sh findParent old amp).filterMap id = [] := by
        by_contra hc
        simp [List.isEmpty_iff, hc] at h
      rw [List.eq_replicate_iff]
      exact ⟨hlen, (list_filterMap_id_eq_nil _).mp hempty⟩
    · intro h
      have hnil : (validatorResults sh findParent old amp).filterMap id = [] :=
        (list_filterMap_id_eq_nil _).mpr (by
          intro x hx
          rw [h] at hx
          exact List.eq_of_mem_replicate hx)
      simp [hnil]
  · decide

/-- Witness for C1: a fully valid candidate is accepted, via the
all-validators-`none` characterization. -/
theorem validate_runs_all_and_aggregates_witness :
    Validate shOK lookupOK none ampOK = none :=
  (validate_runs_all_and_aggregates.1 shOK lookupOK none ampOK).mpr (by decide)

/-- Claim C2: `ValidateCreate` with the MachinePool feature gate disabled
returns the `Forbidden` error on path `spec` for every candidate, before
and independent of any validator; with the gate enabled it returns
exactly `Validate` with no prior object. -/
theorem validateCreate_feature_gate_spec :
    ∀ (sh : SharedValidators) (findParent : ParentLookup)
      (amp : AzureMachinePool),
      ValidateCreate false sh findParent amp =
        some (.fieldErr ⟨.forbidden, ["spec"],
          "can be set only if the MachinePool feature flag is enabled"⟩)
      ∧ ValidateCreate true sh findParent amp = Validate sh findParent none amp :=
  fun _ _ _ => ⟨rfl, rfl⟩

/-- Witness for C2: the gate-disabled rejection at a concrete (otherwise
fully valid) candidate. -/
theorem validateCreate_feature_gate_witness :
    ValidateCreate false shOK lookupOK ampOK =
      some (.fieldErr ⟨.forbidden, ["spec"],
        "can be set only if the MachinePool feature flag is enabled"⟩) :=
  (validateCreate_feature_gate_spec shOK lookupOK ampOK).1

/-- Claim C3: `ValidateNetwork` fires exactly when both the
network-interface list and the subnet name of the template are
non-empty. -/
theorem validateNetwork_error_iff :
    ∀ amp : AzureMachinePool, (ValidateNetwork amp).isSome ↔
      (amp.spec.template.networkInterfaces ≠ [] ∧
       amp.spec.template.subnetName ≠ "") := by
  intro amp
  unfold ValidateNetwork
  split
  · rename_i h
    simp only [Option.isSome_some, true_iff]
    exact ⟨h.1, h.2.2⟩
  · rename_i h
    simp only [Option.isSome_none, Bool.false_eq_true, false_iff]
    intro hc
    exact h ⟨hc.1, List.length_pos.mpr hc.1, hc.2⟩

/-- Witness for C3: the validator fires on a candidate carrying both a
network interface and a subnet name. -/
theorem validateNetwork_error_iff_witness :
    (ValidateNetwork ampTwoViolations).isSome :=
  (validateNetwork_error_iff ampTwoViolations).mpr (by decide)

/-- Claim C4: `ValidateTerminateNotificationTimeout` accepts an unset
timeout, accepts a set timeout exactly when `5 ≤ t ≤ 15`, and names the
violated bound otherwise. -/
theorem validateTerminateNotificationTimeout_spec :
    ∀ amp : AzureMachinePool,
      (amp.spec.template.terminateNotificationTimeout = none →
        ValidateTerminateNotificationTimeout amp = none)
      ∧ (∀ t : Int, amp.spec.template.terminateNotificationTimeout = some t →
          ((ValidateTerminateNotificationTimeout amp = none ↔ 5 ≤ t ∧ t ≤ 15)
           ∧ (t < 5 → ValidateTerminateNotificationTimeout amp =
                some (.simple "minimum timeout 5 is allowed for TerminateNotificationTimeout"))
           ∧ (15 < t → ValidateTerminateNotificationTimeout amp =
                some (.simple "maximum timeout 15 is allowed for TerminateNotificationTimeout")))) := by
  intro amp
  constructor
  · intro h
    unfold ValidateTerminateNotificationTimeout
    rw [h]
  · intro t ht
    unfold ValidateTerminateNotificationTimeout
    rw [ht]
    refine ⟨?_, ?_, ?_⟩
    · constructor
      · intro h
        by_contra hc
        rw [not_and_or, not_le, not_le] at hc
        rcases hc with hc | hc
        · simp [hc] at h
        · simp [show ¬ (t < 5) by omega, hc] at h
      · intro ⟨h5, h15⟩
        simp [show ¬ (t < 5) by omega, show ¬ (15 < t) by omega]
    · intro h
      simp [h]
    · intro h
      simp [show ¬ (t < 5) by omega, h]

/-- Witness for C4: 5 and 15 accepted, 4 and 16 rejected with the named
bound. -/
theorem validateTerminateNotificationTimeout_witness :
    ValidateTerminateNotificationTimeout (ampWithTimeout 5) = none
    ∧ ValidateTerminateNotificationTimeout (ampWithTimeout 15) = none
    ∧ ValidateTerminateNotificationTimeout (ampWithTimeout 4) =
        some (.simple "minimum timeout 5 is allowed for TerminateNotificationTimeout")
    ∧ ValidateTerminateNotificationTimeout (ampWithTimeout 16) =
        some (.simple "maximum timeout 15 is allowed for TerminateNotificationTimeout") :=
  ⟨((validateTerminateNotificationTimeout_spec (ampWithTimeout 5)).2 5 rfl).1.mpr (by decide),
   ((validateTerminateNotificationTimeout_spec (ampWithTimeout 15)).2 15 rfl).1.mpr (by decide),
   ((validateTerminateNotificationTimeout_spec (ampWithTimeout 4)).2 4 rfl).2.1 (by decide),
   ((validateTerminateNotificationTimeout_spec (ampWithTimeout 16)).2 16 rfl).2.2 (by decide)⟩

/-- Claim C5: `ValidateStrategy` fires exactly on a RollingUpdate
strategy with present rolling-update parameters whose MaxSurge and
MaxUnavailable are both the absolute integer 0; percentage-typed zeroes,
surge 1 with unavailable 0, and non-RollingUpdate strategies pass. -/
theorem validateStrategy_error_iff :
    (∀ amp : AzureMachinePool, (ValidateStrategy amp).isSome ↔
       (amp.spec.strategy.type = RollingUpdateAzureMachinePoolDeploymentStrategyType ∧
        ∃ ru, amp.spec.strategy.rollingUpdate = some ru ∧
          ru.maxSurge.type = .intType ∧ ru.maxSurge.intVal = 0 ∧
          ru.maxUnavailable.type = .intType ∧ ru.maxUnavailable.intVal = 0))
    ∧ ValidateStrategy (ampWithStrategy ⟨"RollingUpdate",
        some ⟨⟨.stringType, 0, "0%"⟩, ⟨.stringType, 0, "0%"⟩⟩⟩) = none
    ∧ ValidateStrategy (ampWithStrategy ⟨"RollingUpdate",
        some ⟨⟨.intType, 1, ""⟩, ⟨.intType, 0, ""⟩⟩⟩) = none
    ∧ ValidateStrategy (ampWithStrategy ⟨"",
        some ⟨⟨.intType, 0, ""⟩, ⟨.intType, 0, ""⟩⟩⟩) = none
    ∧ ValidateStrategy (ampWithStrategy ⟨"RollingUpdate",
        some ⟨⟨.intType, 0, ""⟩, ⟨.intType, 0, ""⟩⟩⟩) =
        some (.simple "rolling update strategy MaxUnavailable must not be 0 if MaxSurge is 0") := by
  refine ⟨?_, by decide, by decide, by decide, by decide⟩
  intro amp
  unfold ValidateStrategy
  split
  · rename_i hty
    cases hru : amp.spec.strategy.rollingUpdate with
    | none => simp
    | some ru =>
      simp only
      split
      · rename_i hcond
        simp only [Option.isSome_some, true_iff]
        exact ⟨hty, ru, rfl, hcond.1, hcond.2.1, hcond.2.2.1, hcond.2.2.2⟩
      · rename_i hcond
        simp only [Option.isSome_none, Bool.false_eq_true, false_iff]
        rintro ⟨-, ru', hru', hc⟩
        cases hru'
        exact hcond hc
  · rename_i hty
    simp only [Option.isSome_none, Bool.false_eq_true, false_iff]
    rintro ⟨h, -⟩
    exact hty h

/-- Witness for C5: the both-zero-integers case fires, via the
characterization. -/
theorem validateStrategy_error_iff_witness :
    (ValidateStrategy (ampWithStrategy ⟨"RollingUpdate",
      some ⟨⟨.intType, 0, ""⟩, ⟨.intType, 0, ""⟩⟩⟩)).isSome :=
  (validateStrategy_error_iff.1 _).mpr
    ⟨rfl, ⟨⟨.intType, 0, ""⟩, ⟨.intType, 0, ""⟩⟩, rfl, rfl, rfl, rfl, rfl⟩

/-- Claim C6: `ValidateDiagnostics` with boot diagnostics set: a
UserManaged storage type requires a user-managed block with a non-empty
URI (`Required` errors otherwise, acceptance with a non-empty URI);
Managed or Disabled storage types reject a non-empty user-managed URI
with an `Invalid` error; unset boot diagnostics pass. -/
theorem validateDiagnostics_spec :
    ∀ amp : AzureMachinePool,
      (amp.spec.template.diagnostics = none → ValidateDiagnostics amp = none)
      ∧ (amp.spec.template.diagnostics = some ⟨none⟩ → ValidateDiagnostics amp = none)
      ∧ (∀ boot : BootDiagnostics, amp.spec.template.diagnostics = some ⟨some boot⟩ →
          (boot.storageAccountType = UserManagedDiagnosticsStorage →
            (boot.userManaged = none →
              ValidateDiagnostics amp = some (.fieldAgg
                [⟨.required, ["diagnostics", "UserManaged"],
                  "userManaged must be specified when storageAccountType is \x27UserManaged\x27"⟩]))
            ∧ (∀ um, boot.userManaged = some um →
                (um.storageAccountURI = "" →
                  ValidateDiagnostics amp = some (.fieldAgg
                    [⟨.required, ["diagnostics", "StorageAccountURI"],
                      "StorageAccountURI cannot be empty when storageAccountType is \x27UserManaged\x27"⟩]))
                ∧ (um.storageAccountURI ≠ "" → ValidateDiagnostics amp = none)))
          ∧ ((boot.storageAccountType = ManagedDiagnosticsStorage ∨
              boot.storageAccountType = DisabledDiagnosticsStorage) →
             ∀ um, boot.userManaged = some um → um.storageAccountURI ≠ "" →
               ValidateDiagnostics amp = some (.fieldAgg
                 [⟨.invalid, ["diagnostics", "StorageAccountURI"],
                   "StorageAccountURI cannot be set when storageAccountType is \x27Managed\x27"⟩]))) := by
  intro amp
  refine ⟨?_, ?_, ?_⟩
  · intro h
    unfold ValidateDiagnostics
    rw [h]
    rfl
  · intro h
    unfold ValidateDiagnostics
    rw [h]
    rfl
  · intro boot hdiag
    constructor
    · intro hty
      constructor
      · intro hum
        unfold ValidateDiagnostics
        rw [hdiag]
        simp [hty, hum, aggIfAny]
      · intro um hum
        constructor
        · intro huri
          unfold ValidateDiagnostics
          rw [hdiag]
          simp [hty, hum, huri, aggIfAny]
        · intro huri
          unfold ValidateDiagnostics
          rw [hdiag]
          simp [hty, hum, huri, aggIfAny]
    · intro hty um hum huri
      unfold ValidateDiagnostics
      rw [hdiag]
      rcases hty with hty | hty
      · have hne : boot.storageAccountType ≠ UserManagedDiagnosticsStorage := by
          rw [hty]; decide
        simp [hne, hty, hum, huri, aggIfAny]
        decide
      · have hne : boot.storageAccountType ≠ UserManagedDiagnosticsStorage := by
          rw [hty]; decide
        have hne2 : boot.storageAccountType ≠ ManagedDiagnosticsStorage := by
          rw [hty]; decide
        simp [hne, hne2, hty, hum, huri, aggIfAny]
        decide

/-- Witness for C6: the four concrete scenarios of the claim. -/
theorem validateDiagnostics_witness :
    ValidateDiagnostics (ampWithBoot ⟨"UserManaged", none⟩) =
      some (.fieldAgg [⟨.required, ["diagnostics", "UserManaged"],
        "userManaged must be specified when storageAccountType is \x27UserManaged\x27"⟩])
    ∧ ValidateDiagnostics (ampWithBoot ⟨"UserManaged", some ⟨""⟩⟩) =
      some (.fieldAgg [⟨.required, ["diagnostics", "StorageAccountURI"],
        "StorageAccountURI cannot be empty when storageAccountType is \x27UserManaged\x27"⟩])
    ∧ ValidateDiagnostics (ampWithBoot ⟨"UserManaged", some ⟨"https://acct/"⟩⟩) = none
    ∧ ValidateDiagnostics (ampWithBoot ⟨"Managed", some ⟨"https://acct/"⟩⟩) =
      some (.fieldAgg [⟨.invalid, ["diagnostics", "StorageAccountURI"],
        "StorageAccountURI cannot be set when storageAccountType is \x27Managed\x27"⟩]) :=
  ⟨(((validateDiagnostics_spec _).2.2 _ rfl).1 rfl).1 rfl,
   ((((validateDiagnostics_spec _).2.2 _ rfl).1 rfl).2 _ rfl).1 rfl,
   ((((validateDiagnostics_spec _).2.2 _ rfl).1 rfl).2 _ rfl).2 (by decide),
   ((validateDiagnostics_spec _).2.2 _ rfl).2 (Or.inl rfl) _ rfl (by decide)⟩

/-- Helper: `ValidateOrchestrationMode` in Flexible mode, unfolded. -/
theorem validateOrchestrationMode_flexible_eq (findParent : ParentLookup)
    (amp : AzureMachinePool)
    (h : amp.spec.orchestrationMode = OrchestrationModeFlexible) :
    ValidateOrchestrationMode findParent amp =
      match findParent amp.name 5 with
      | .error e => some (.wrap e "failed to find parent MachinePool")
      | .ok parent =>
        match parent.version with
        | none => some (.simple "could not find Kubernetes version in MachinePool")
        | some v =>
          match semverParseTolerant v with
          | .error e => some (.wrap e "failed to parse Kubernetes version")
          | .ok k8sVersion =>
            if semverLT k8sVersion semverV1_26_0 then
              some (.simple
                ("specified Kubernetes version " ++ semverToString k8sVersion
                  ++ " must be >= 1.26.0 for Flexible orchestration mode"))
            else none := by
  unfold ValidateOrchestrationMode
  rw [if_pos h]

/-- Claim C7: `ValidateOrchestrationMode` never consults the lookup and
accepts when the mode is not Flexible; in Flexible mode it looks up the
parent by the pool name with retry bound 5, rejects on lookup failure, on
a missing Kubernetes version, on an unparsable version, and otherwise
rejects exactly when the tolerantly parsed version is below 1.26.0
(1.25.9 rejected, 1.26.0 accepted, `v1.26` parses). -/
theorem validateOrchestrationMode_spec :
    (∀ (amp : AzureMachinePool) (findParent findParent2 : ParentLookup),
      amp.spec.orchestrationMode ≠ OrchestrationModeFlexible →
        ValidateOrchestrationMode findParent amp = none ∧
        ValidateOrchestrationMode findParent amp =
          ValidateOrchestrationMode findParent2 amp)
    ∧ (∀ (amp : AzureMachinePool) (findParent : ParentLookup),
        amp.spec.orchestrationMode = OrchestrationModeFlexible →
        (∀ e, findParent amp.name 5 = .error e →
          ValidateOrchestrationMode findParent amp =
            some (.wrap e "failed to find parent MachinePool"))
        ∧ (∀ parent, findParent amp.name 5 = .ok parent →
            (parent.version = none →
              ValidateOrchestrationMode findParent amp =
                some (.simple "could not find Kubernetes version in MachinePool"))
            ∧ (∀ v, parent.version = some v →
                (∀ e, semverParseTolerant v = .error e →
                  ValidateOrchestrationMode findParent amp =
                    some (.wrap e "failed to parse Kubernetes version"))
                ∧ (∀ sv, semverParseTolerant v = .ok sv →
                    (ValidateOrchestrationMode findParent amp = none ↔
                      semverLT sv semverV1_26_0 = false)))))
    ∧ semverParseTolerant "1.25.9" = .ok ⟨1, 25, 9, [], []⟩
    ∧ semverLT ⟨1, 25, 9, [], []⟩ semverV1_26_0 = true
    ∧ semverParseTolerant "1.26.0" = .ok ⟨1, 26, 0, [], []⟩
    ∧ semverLT ⟨1, 26, 0, [], []⟩ semverV1_26_0 = false
    ∧ semverParseTolerant "v1.26" = .ok ⟨1, 26, 0, [], []⟩
    ∧ ValidateOrchestrationMode lookup1259 ampFlexible =
        some (.simple "specified Kubernetes version 1.25.9 must be >= 1.26.0 for Flexible orchestration mode")
    ∧ ValidateOrchestrationMode lookup1260 ampFlexible = none
    ∧ (∃ e, ValidateOrchestrationMode lookupBadVersion ampFlexible =
        some (.wrap e "failed to parse Kubernetes version")) := by
  refine ⟨?_, ?_, by decide, by decide, by decide, by decide, by decide,
    by decide, by decide, ⟨_, rfl⟩⟩
  · intro amp findParent findParent2 h
    unfold ValidateOrchestrationMode
    rw [if_neg h, if_neg h]
    exact ⟨rfl, rfl⟩
  · intro amp findParent h
    refine ⟨?_, ?_⟩
    · intro e he
      rw [validateOrchestrationMode_flexible_eq findParent amp h]
      simp only [he]
    · intro parent hp
      refine ⟨?_, ?_⟩
      · intro hv
        rw [validateOrchestrationMode_flexible_eq findParent amp h]
        simp only [hp, hv]
      · intro v hv
        refine ⟨?_, ?_⟩
        · intro e he
          rw [validateOrchestrationMode_flexible_eq findParent amp h]
          simp only [hp, hv, he]
        · intro sv hsv
          rw [validateOrchestrationMode_flexible_eq findParent amp h]
          cases hlt : semverLT sv semverV1_26_0 <;>
            simp [hp, hv, hsv, hlt]

/-- Witness for C7: a non-Flexible pool is accepted whatever the
lookup. -/
theorem validateOrchestrationMode_witness :
    ValidateOrchestrationMode lookup1259
        { ampOK with spec.orchestrationMode := "Uniform" } = none :=
  (validateOrchestrationMode_spec.1 { ampOK with spec.orchestrationMode := "Uniform" }
    lookup1259 lookup1260 (by decide)).1

/-- Claim C8: `ValidateSystemAssignedIdentity` treats a nil prior as the
empty previous role name, rejects a prior of the wrong type with a
type-mismatch error, and otherwise delegates identity, previous role name
and current role name to the shared validator. -/
theorem validateSystemAssignedIdentity_spec :
    ∀ (sh : SharedValidators) (amp : AzureMachinePool),
      (ValidateSystemAssignedIdentity sh none amp =
        aggIfAny (sh.validateSystemAssignedIdentity amp.spec.identity ""
          amp.spec.roleAssignmentName))
      ∧ (∀ oldAmp, ValidateSystemAssignedIdentity sh
            (some (.azureMachinePool oldAmp)) amp =
          aggIfAny (sh.validateSystemAssignedIdentity amp.spec.identity
            oldAmp.spec.roleAssignmentName amp.spec.roleAssignmentName))
      ∧ (∀ typeName, ValidateSystemAssignedIdentity sh
            (some (.other typeName)) amp =
          some (.simple
            ("unexpected type for old azure machine pool object. Expected: \x22AzureMachinePool\x22, Got: \x22"
              ++ typeName ++ "\x22"))) :=
  fun _ _ => ⟨rfl, fun _ => rfl, fun _ => rfl⟩

/-- Witness for C8: the type-mismatch rejection at a concrete prior. -/
theorem validateSystemAssignedIdentity_witness :
    ValidateSystemAssignedIdentity shOK (some (.other "*v1beta1.AzureMachine")) ampOK =
      some (.simple
        ("unexpected type for old azure machine pool object. Expected: \x22AzureMachinePool\x22, Got: \x22*v1beta1.AzureMachine\x22")) :=
  (validateSystemAssignedIdentity_spec shOK ampOK).2.2 "*v1beta1.AzureMachine"

/-- Helper: closed form of one `Default` pass on a destructured pool. -/
theorem default_closed_form (env : DefaultingEnv)
    (n : String) (img : Option Image) (tnt : Option Int) (ssh : String)
    (diag : Option Diagnostics) (nics : List NetworkInterface)
    (subnet : String) (strat : AzureMachinePoolDeploymentStrategy)
    (ident : String) (uai : List UserAssignedIdentity)
    (role mode : String) :
    Default env ⟨n, ⟨⟨img, tnt, ssh, diag, nics, subnet⟩, strat, ident, uai, role, mode⟩⟩ =
      ⟨n, ⟨⟨img, tnt, sshAfter env ssh, diagAfter env diag,
            nicsAfter env nics, subnet⟩,
          strat, ident, uai, roleAfter env ident role, mode⟩⟩ := by
  unfold Default SetDefaultSSHPublicKey SetIdentityDefaults
    SetDiagnosticsDefaults SetNetworkInterfacesDefaults
    sshAfter roleAfter diagAfter nicsAfter
  cases hg : env.generatedSSHPublicKey <;> split_ifs <;> rfl

/-- Helper: one SSH-key defaulting pass is idempotent. -/
theorem sshAfter_idem (env : DefaultingEnv) (ssh : String) :
    sshAfter env (sshAfter env ssh) = sshAfter env ssh := by
  unfold sshAfter
  cases hg : env.generatedSSHPublicKey <;> split_ifs <;> simp_all

/-- Helper: one identity defaulting pass is idempotent. -/
theorem roleAfter_idem (env : DefaultingEnv) (ident role : String) :
    roleAfter env ident (roleAfter env ident role) = roleAfter env ident role := by
  unfold roleAfter
  split_ifs <;> simp_all

/-- Helper: one diagnostics defaulting pass is idempotent. -/
theorem diagAfter_idem (env : DefaultingEnv) (diag : Option Diagnostics) :
    diagAfter env (diagAfter env diag) = diagAfter env diag := rfl

/-- Helper: one network-interface defaulting pass is idempotent. -/
theorem nicsAfter_idem (env : DefaultingEnv) (nics : List NetworkInterface) :
    nicsAfter env (nicsAfter env nics) = nicsAfter env nics := by
  unfold nicsAfter
  split_ifs <;> simp_all

/-- Claim C9: the defaulting routine is idempotent: applying `Default`
twice yields the same object as applying it once, for every environment
and candidate. -/
theorem default_idempotent :
    ∀ (env : DefaultingEnv) (amp : AzureMachinePool),
      Default env (Default env amp) = Default env amp := by
  intro env amp
  obtain ⟨n, ⟨⟨img, tnt, ssh, diag, nics, subnet⟩, strat, ident, uai, role, mode⟩⟩ := amp
  rw [default_closed_form, default_closed_form,
    sshAfter_idem, roleAfter_idem, diagAfter_idem, nicsAfter_idem]

/-- Witness for C9: idempotence at a concrete environment and pool. -/
theorem default_idempotent_witness :
    Default envDefaults (Default envDefaults ampOK) = Default envDefaults ampOK :=
  default_idempotent envDefaults ampOK

/-- Claim C10: a set boot-diagnostics block whose storage-account type is
none of UserManaged, Managed, or Disabled passes `ValidateDiagnostics`,
even with a non-empty user-managed URI. -/
theorem validateDiagnostics_unknown_storage_accepts :
    ∀ (amp : AzureMachinePool) (boot : BootDiagnostics),
      amp.spec.template.diagnostics = some ⟨some boot⟩ →
      boot.storageAccountType ≠ UserManagedDiagnosticsStorage →
      boot.storageAccountType ≠ ManagedDiagnosticsStorage →
      boot.storageAccountType ≠ DisabledDiagnosticsStorage →
      ValidateDiagnostics amp = none := by
  intro amp boot hdiag h1 h2 h3
  unfold ValidateDiagnostics
  rw [hdiag]
  simp [h1, h2, h3]

/-- Witness for C10: the empty storage type with a non-empty user-managed
URI is accepted. -/
theorem validateDiagnostics_unknown_storage_witness :
    ValidateDiagnostics (ampWithBoot ⟨"", some ⟨"https://acct.example/"⟩⟩) = none :=
  validateDiagnostics_unknown_storage_accepts _ ⟨"", some ⟨"https://acct.example/"⟩⟩ rfl
    (by decide) (by decide) (by decide)

end AMPWebhook
